import Mathlib

/-!
Verification of the pregnancy-compass prediction and fallback logic.

The definitions below are shallow embeddings of the TypeScript source:
numeric form values are modelled as `Int` (fields read with `parseInt`)
or `ℚ` (fields read with `parseFloat`), yes/no radio values as the
`String`s the form stores, and fallible backend calls as `Except` values.
Each page's handler is translated function-by-function from the source;
`spec…` definitions restate the natural-language specification and are
compared with the source-side definitions by theorem.
-/

namespace PregnancyCompass

/-! ## Local Pregnancy-Risk fallback scorer (Health.tsx, handleAnalyze) -/

namespace RiskScore

/-- The parsed form input of the local risk scorer.  `age`, `systolicBP`,
`diastolicBP` and `heartRate` are read with `parseInt`; `bloodSugar` and
`bodyTemp` with `parseFloat`; the medical-history radio groups store the
strings "yes" / "no". -/
structure RiskInput where
  age : Int
  systolicBP : Int
  diastolicBP : Int
  bloodSugar : ℚ
  bodyTemp : ℚ
  heartRate : Int
  previousPregnancies : String
  previousComplications : String
  diabetes : String
  hypertension : String
  familyHistory : String
deriving DecidableEq

/-- Tier of the local scorer (`riskLevel` in the source). -/
inductive RiskLevel where
  | Low
  | Medium
  | High
deriving DecidableEq

/-- Severity rank of a tier, for monotonicity statements. -/
def RiskLevel.rank : RiskLevel → Nat
  | .Low => 0
  | .Medium => 1
  | .High => 2

/-- Source condition `age < 18 || age > 35`. -/
def ageRisk (i : RiskInput) : Bool :=
  decide (i.age < 18) || decide (i.age > 35)

/-- Source condition `systolic > 140 || diastolic > 90`. -/
def bpRisk (i : RiskInput) : Bool :=
  decide (i.systolicBP > 140) || decide (i.diastolicBP > 90)

/-- Source condition `bloodSugar > 140`. -/
def sugarRisk (i : RiskInput) : Bool :=
  decide (i.bloodSugar > 140)

/-- Source condition `heartRate > 100 || heartRate < 60`. -/
def hrRisk (i : RiskInput) : Bool :=
  decide (i.heartRate > 100) || decide (i.heartRate < 60)

/-- Source condition `previousComplications === 'yes'`. -/
def compRisk (i : RiskInput) : Bool := i.previousComplications == "yes"

/-- Source condition `diabetes === 'yes'`. -/
def diabRisk (i : RiskInput) : Bool := i.diabetes == "yes"

/-- Source condition `hypertension === 'yes'`. -/
def hypRisk (i : RiskInput) : Bool := i.hypertension == "yes"

/-- Source condition `familyHistory === 'yes'`. -/
def famRisk (i : RiskInput) : Bool := i.familyHistory == "yes"

def adviceLow : String :=
  "Your pregnancy appears to be progressing normally with low risk factors. Continue regular prenatal care and maintain a healthy lifestyle."

def adviceMedium : String :=
  "Some risk factors have been identified. More frequent monitoring and lifestyle modifications may be recommended. Discuss these findings with your healthcare provider."

def adviceHigh : String :=
  "Multiple risk factors have been identified. Immediate consultation with your healthcare provider is recommended for a comprehensive evaluation and care plan."

def noRiskFactorsMsg : String := "No significant risk factors identified"

/-- The result record `setResult` receives. -/
structure RiskResult where
  riskLevel : RiskLevel
  score : Int
  factors : List String
  advice : String
deriving DecidableEq

/-- Shallow embedding of `handleAnalyze` from Health.tsx: sequential
additive scoring with factor collection, clamping with `Math.min`,
tier thresholds 30 and 60, and the empty-factor placeholder. -/
def handleAnalyze (i : RiskInput) : RiskResult :=
  let riskScore : Int := 0
  let riskFactors : List String := []
  let riskScore := if ageRisk i then riskScore + 15 else riskScore
  let riskFactors :=
    if ageRisk i then riskFactors ++ ["Age factor (" ++ toString i.age ++ " years)"] else riskFactors
  let riskScore := if bpRisk i then riskScore + 20 else riskScore
  let riskFactors :=
    if bpRisk i then riskFactors ++ ["Elevated blood pressure"] else riskFactors
  let riskScore := if sugarRisk i then riskScore + 15 else riskScore
  let riskFactors :=
    if sugarRisk i then riskFactors ++ ["Elevated blood sugar levels"] else riskFactors
  let riskScore := if hrRisk i then riskScore + 10 else riskScore
  let riskFactors :=
    if hrRisk i then riskFactors ++ ["Abnormal heart rate"] else riskFactors
  let riskScore := if compRisk i then riskScore + 15 else riskScore
  let riskFactors :=
    if compRisk i then riskFactors ++ ["History of pregnancy complications"] else riskFactors
  let riskScore := if diabRisk i then riskScore + 15 else riskScore
  let riskFactors :=
    if diabRisk i then riskFactors ++ ["Diabetes"] else riskFactors
  let riskScore := if hypRisk i then riskScore + 15 else riskScore
  let riskFactors :=
    if hypRisk i then riskFactors ++ ["Hypertension"] else riskFactors
  let riskScore := if famRisk i then riskScore + 10 else riskScore
  let riskFactors :=
    if famRisk i then riskFactors ++ ["Family history of complications"] else riskFactors
  let riskScore := min riskScore 100
  let riskLevel :=
    if riskScore < 30 then RiskLevel.Low
    else if riskScore < 60 then RiskLevel.Medium
    else RiskLevel.High
  let advice :=
    if riskScore < 30 then adviceLow
    else if riskScore < 60 then adviceMedium
    else adviceHigh
  let riskFactors := if riskFactors.isEmpty then riskFactors ++ [noRiskFactorsMsg] else riskFactors
  { riskLevel := riskLevel, score := riskScore, factors := riskFactors, advice := advice }

/-- Spec-side point sum (§4.4 of the spec, restated from its words). -/
def specSum (i : RiskInput) : Int :=
  (if i.age < 18 ∨ i.age > 35 then 15 else 0)
    + (if i.systolicBP > 140 ∨ i.diastolicBP > 90 then 20 else 0)
    + (if i.bloodSugar > 140 then 15 else 0)
    + (if i.heartRate > 100 ∨ i.heartRate < 60 then 10 else 0)
    + (if i.previousComplications = "yes" then 15 else 0)
    + (if i.diabetes = "yes" then 15 else 0)
    + (if i.hypertension = "yes" then 15 else 0)
    + (if i.familyHistory = "yes" then 10 else 0)

/-- Spec-side score: the point sum clamped to at most 100. -/
def specScore (i : RiskInput) : Int := min (specSum i) 100

/-- Spec-side tier map: below 30 Low, below 60 Medium, else High. -/
def specTier (s : Int) : RiskLevel :=
  if s < 30 then .Low else if s < 60 then .Medium else .High

/-- Outcome of the eight point-table rules on an input. -/
structure RuleFlags where
  age : Bool
  bp : Bool
  sugar : Bool
  hr : Bool
  comp : Bool
  diab : Bool
  hyp : Bool
  fam : Bool
deriving DecidableEq

/-- The rule outcomes the scorer computes for an input. -/
def ruleFlags (i : RiskInput) : RuleFlags :=
  ⟨ageRisk i, bpRisk i, sugarRisk i, hrRisk i, compRisk i, diabRisk i, hypRisk i, famRisk i⟩

/-- Weighted sum of triggered rules with the documented point table. -/
def flagSum (f : RuleFlags) : Int :=
  (if f.age then 15 else 0) + (if f.bp then 20 else 0) + (if f.sugar then 15 else 0)
    + (if f.hr then 10 else 0) + (if f.comp then 15 else 0) + (if f.diab then 15 else 0)
    + (if f.hyp then 15 else 0) + (if f.fam then 10 else 0)

/-- Pointwise ordering on rule outcomes: every rule triggered by `f`
is also triggered by `g`. -/
def flagLe (f g : RuleFlags) : Prop :=
  (f.age = true → g.age = true) ∧ (f.bp = true → g.bp = true)
    ∧ (f.sugar = true → g.sugar = true) ∧ (f.hr = true → g.hr = true)
    ∧ (f.comp = true → g.comp = true) ∧ (f.diab = true → g.diab = true)
    ∧ (f.hyp = true → g.hyp = true) ∧ (f.fam = true → g.fam = true)

/-- `g` is `f` with exactly one additional rule triggered, the outcomes
of all other rules unchanged. -/
def stepUp (f g : RuleFlags) : Prop :=
  (f.age = false ∧ g = { f with age := true })
    ∨ (f.bp = false ∧ g = { f with bp := true })
    ∨ (f.sugar = false ∧ g = { f with sugar := true })
    ∨ (f.hr = false ∧ g = { f with hr := true })
    ∨ (f.comp = false ∧ g = { f with comp := true })
    ∨ (f.diab = false ∧ g = { f with diab := true })
    ∨ (f.hyp = false ∧ g = { f with hyp := true })
    ∨ (f.fam = false ∧ g = { f with fam := true })

/-- The all-normal outcome: no rule triggers. -/
def noFlags : RuleFlags := ⟨false, false, false, false, false, false, false, false⟩

/-- The §8 example input: age 40, BP 150/95, sugar 90, HR 75, temperature
98.6, no adverse history flags. -/
def exampleInput : RiskInput :=
  { age := 40, systolicBP := 150, diastolicBP := 95, bloodSugar := 90,
    bodyTemp := 98.6, heartRate := 75, previousPregnancies := "",
    previousComplications := "no", diabetes := "no", hypertension := "no",
    familyHistory := "no" }

/-- A fully normal input used as a witness. -/
def healthyInput : RiskInput :=
  { age := 28, systolicBP := 120, diastolicBP := 80, bloodSugar := 95,
    bodyTemp := 98.6, heartRate := 75, previousPregnancies := "1",
    previousComplications := "no", diabetes := "no", hypertension := "no",
    familyHistory := "no" }

/-- The healthy input with the age changed so that exactly the age rule
additionally triggers. -/
def agedInput : RiskInput := { healthyInput with age := 40 }

end RiskScore

/-! ## Chatbot keyword fallback (Chatbot.tsx) -/

namespace Chat

/-- Lowercasing as JS `toLowerCase` on the ASCII text involved. -/
def lower (s : String) : String := s.map Char.toLower

/-- `isPrefixL n h` holds when the char list `n` starts the char list `h`. -/
def isPrefixL : List Char → List Char → Bool
  | [], _ => true
  | _ :: _, [] => false
  | a :: as, b :: bs => a == b && isPrefixL as bs

/-- `containsL n h` holds when `n` occurs as a contiguous run of `h`. -/
def containsL (n : List Char) : List Char → Bool
  | [] => isPrefixL n []
  | c :: t => isPrefixL n (c :: t) || containsL n t

/-- JS `hay.includes(needle)`. -/
def strIncludes (hay needle : String) : Bool := containsL needle.data hay.data

def symptomResp : String :=
  "Early pregnancy symptoms typically include missed period, nausea (morning sickness), tender breasts, fatigue, and frequent urination. These usually appear within the first 4-6 weeks. However, every pregnancy is unique, and some women may experience different symptoms."

def foodResp : String :=
  "During pregnancy, you should avoid: raw or undercooked meat/seafood, unpasteurized dairy, high-mercury fish (shark, swordfish), excessive caffeine, alcohol, and raw eggs. Focus on eating balanced meals with plenty of fruits, vegetables, lean proteins, and whole grains."

def weightResp : String :=
  "Normal weight gain during pregnancy varies based on your pre-pregnancy BMI. Generally, women with normal BMI should gain 25-35 pounds. Underweight women may need to gain more (28-40 lbs), while overweight women may need less (15-25 lbs). Always consult your doctor for personalized advice."

def movementResp : String :=
  "Most women start feeling baby movements (quickening) between weeks 16-25. First-time mothers typically feel movements later (around 18-25 weeks), while experienced mothers may feel them earlier (around 13-18 weeks). These early movements feel like flutters or bubbles."

def defaultResp : String :=
  "I\x27m here to help you with pregnancy-related questions. Feel free to ask me anything about nutrition, symptoms, or general pregnancy care! For the most accurate responses, please make sure the backend server is running."

/-- Shallow embedding of `getFallbackResponse` from Chatbot.tsx: the
case-insensitive keyword if-chain with the generic default. -/
def getFallbackResponse (message : String) : String :=
  let lowerMessage := lower message
  if strIncludes lowerMessage "symptom" || strIncludes lowerMessage "early pregnancy" then
    symptomResp
  else if strIncludes lowerMessage "food" || strIncludes lowerMessage "avoid"
      || strIncludes lowerMessage "eat" then
    foodResp
  else if strIncludes lowerMessage "weight" || strIncludes lowerMessage "gain" then
    weightResp
  else if strIncludes lowerMessage "movement" || strIncludes lowerMessage "kick"
      || strIncludes lowerMessage "feel" then
    movementResp
  else
    defaultResp

/-- Spec-side priority-ordered keyword table. -/
def keywordTable : List (List String × String) :=
  [(["symptom", "early pregnancy"], symptomResp),
   (["food", "avoid", "eat"], foodResp),
   (["weight", "gain"], weightResp),
   (["movement", "kick", "feel"], movementResp)]

/-- Spec-side responder: canned answer of the first group with a matching
case-insensitive substring; the generic default when none match. -/
def firstMatch (message : String) : List (List String × String) → String
  | [] => defaultResp
  | (kws, ans) :: rest =>
    if kws.any (fun k => strIncludes (lower message) k) then ans
    else firstMatch message rest

/-- The shape of a backend chat response (`ChatResponse` in api.ts). -/
structure ChatResponse where
  response : String
  category : String
  relatedTopics : List String
deriving DecidableEq

/-- Shallow embedding of the `try`/`catch` of `handleSend` in Chatbot.tsx:
the content of the assistant message appended for a backend outcome, plus
whether the local fallback (and its Backend Offline toast) was used. -/
def handleSendContent (backend : Except String ChatResponse) (text : String) :
    String × Bool :=
  match backend with
  | .ok r => (r.response, false)
  | .error _ => (getFallbackResponse text, true)

end Chat

/-! ## Pregnancy-Risk prediction page (PregnancyDifficulty.tsx) -/

namespace PregPage

/-- Result envelope of the pregnancy-risk backend (api.ts). -/
structure PregnancyRiskResult where
  prediction : String
  confidence : ℚ
  risk_score : ℚ
deriving DecidableEq

/-- Shallow embedding of the `try`/`catch` of `handleAnalyze` in
PregnancyDifficulty.tsx: on success the response is stored and an
Analysis Complete toast shown; on failure no result is stored and an
Analysis Failed toast is shown. -/
def analyzeOutcome (backend : Except String PregnancyRiskResult) :
    Option PregnancyRiskResult × String :=
  match backend with
  | .ok r => (some r, "Analysis Complete")
  | .error _ => (none, "Analysis Failed")

/-- Raw form values for the pregnancy-risk request, as parse results:
`none` models an unparsable (`NaN`) value. -/
structure PregRaw where
  age : Option ℚ
  systolicBP : Option ℚ
  diastolicBP : Option ℚ
  bloodSugar : Option ℚ
  bodyTemp : Option ℚ
  heartRate : Option ℚ
deriving DecidableEq

/-- JS `parsed || d`: an unparsable (`NaN`) or zero parse falls back to
the default `d`. -/
def jsOr (v : Option ℚ) (d : ℚ) : ℚ :=
  match v with
  | none => d
  | some x => if x = 0 then d else x

/-- The six-field payload sent to `/predict/pregnancy-risk`. -/
structure PregPayload where
  age : ℚ
  blood_pressure_systolic : ℚ
  blood_pressure_diastolic : ℚ
  blood_sugar : ℚ
  body_temperature : ℚ
  heart_rate : ℚ
deriving DecidableEq

/-- Shallow embedding of the payload built in `handleAnalyze`
(PregnancyDifficulty.tsx lines 46-53): every field defaults to 0 when
unparsable, except `body_temperature` which defaults to 98.6. -/
def apiInput (r : PregRaw) : PregPayload :=
  { age := jsOr r.age 0,
    blood_pressure_systolic := jsOr r.systolicBP 0,
    blood_pressure_diastolic := jsOr r.diastolicBP 0,
    blood_sugar := jsOr r.bloodSugar 0,
    body_temperature := jsOr r.bodyTemp 98.6,
    heart_rate := jsOr r.heartRate 0 }

/-- A wholly unparsable form: every numeric field is `NaN`. -/
def blankRaw : PregRaw := ⟨none, none, none, none, none, none⟩

/-- All numeric fields of the form failed to parse. -/
def allNone (r : PregRaw) : Prop :=
  r.age = none ∧ r.systolicBP = none ∧ r.diastolicBP = none
    ∧ r.bloodSugar = none ∧ r.bodyTemp = none ∧ r.heartRate = none

/-- Payload the page dispatches for a wholly unparsable form. -/
def defaultPayload : PregPayload :=
  { age := 0, blood_pressure_systolic := 0, blood_pressure_diastolic := 0,
    blood_sugar := 0, body_temperature := 98.6, heart_rate := 0 }

end PregPage

/-! ## Fetal-Health local mock engine (FetalHealth.tsx, local variant) -/

namespace FetalMock

/-- The 21 CTG fields of the fetal-health form, as parsed numbers. -/
structure CTGData where
  baselineValue : ℚ
  accelerations : ℚ
  fetalMovement : ℚ
  uterineContractions : ℚ
  lightDecelerations : ℚ
  severeDecelerations : ℚ
  prolonguedDecelerations : ℚ
  abnormalShortTermVariability : ℚ
  meanShortTermVariability : ℚ
  abnormalLongTermVariability : ℚ
  meanLongTermVariability : ℚ
  histogramWidth : ℚ
  histogramMin : ℚ
  histogramMax : ℚ
  histogramPeaks : ℚ
  histogramZeros : ℚ
  histogramMode : ℚ
  histogramMean : ℚ
  histogramMedian : ℚ
  histogramVariance : ℚ
  histogramTendency : ℚ
deriving DecidableEq

inductive FetalClass where
  | Normal
  | Suspect
  | Pathological
deriving DecidableEq

structure FetalResult where
  classification : FetalClass
  confidence : ℚ
  details : String
  recommendations : List String
deriving DecidableEq

def normalDetails : String :=
  "The cardiotocography (CTG) analysis indicates that the fetal health parameters are within normal range. The baseline fetal heart rate, accelerations, and variability patterns suggest healthy fetal well-being."

def suspectDetails : String :=
  "Some CTG parameters show borderline values that warrant closer monitoring. This does not necessarily indicate a problem but suggests the need for additional observation."

def pathologicalDetails : String :=
  "The CTG analysis shows some concerning patterns that require immediate medical attention. Please consult with your healthcare provider promptly for further evaluation."

def normalRecs : List String :=
  ["Continue regular prenatal checkups", "Maintain healthy diet and hydration",
   "Monitor daily fetal movements", "Follow up in 2-4 weeks"]

def suspectRecs : List String :=
  ["Schedule follow-up CTG within 1 week", "Monitor fetal movements closely",
   "Stay hydrated and well-rested", "Contact healthcare provider if concerns arise"]

def pathologicalRecs : List String :=
  ["Contact your healthcare provider immediately", "Prepare for possible hospital visit",
   "Document any symptoms or changes", "Do not delay seeking medical care"]

/-- Shallow embedding of `handleAnalyze` from the local FetalHealth.tsx:
the two `Math.random()` draws of a call are made explicit as `randomValue`
(the bucket draw) and `confRand` (the confidence draw); the form data is
passed but, exactly as in the source, never used. -/
def handleAnalyze (randomValue confRand : ℚ) (_ctg : CTGData) : FetalResult :=
  if randomValue < 0.7 then
    { classification := .Normal, confidence := 92 + confRand * 8,
      details := normalDetails, recommendations := normalRecs }
  else if randomValue < 0.9 then
    { classification := .Suspect, confidence := 75 + confRand * 15,
      details := suspectDetails, recommendations := suspectRecs }
  else
    { classification := .Pathological, confidence := 80 + confRand * 15,
      details := pathologicalDetails, recommendations := pathologicalRecs }

/-- The documented sample data (`loadSampleData` of the local page). -/
def sampleCTG : CTGData :=
  { baselineValue := 120, accelerations := 3, fetalMovement := 10,
    uterineContractions := 2, lightDecelerations := 0, severeDecelerations := 0,
    prolonguedDecelerations := 0, abnormalShortTermVariability := 12,
    meanShortTermVariability := 0.5, abnormalLongTermVariability := 8,
    meanLongTermVariability := 12, histogramWidth := 70, histogramMin := 62,
    histogramMax := 126, histogramPeaks := 2, histogramZeros := 0,
    histogramMode := 120, histogramMean := 137, histogramMedian := 121,
    histogramVariance := 73, histogramTendency := 1 }

end FetalMock

/-! ## Fetal-Health API page payload (FetalHealth.tsx, API variant) -/

namespace FetalApi

/-- Raw 21-field form as parse results: `none` models an unparsable value. -/
structure FetalRaw where
  baselineValue : Option ℚ
  accelerations : Option ℚ
  fetalMovement : Option ℚ
  uterineContractions : Option ℚ
  lightDecelerations : Option ℚ
  severeDecelerations : Option ℚ
  prolonguedDecelerations : Option ℚ
  abnormalShortTermVariability : Option ℚ
  meanShortTermVariability : Option ℚ
  abnormalLongTermVariability : Option ℚ
  meanLongTermVariability : Option ℚ
  histogramWidth : Option ℚ
  histogramMin : Option ℚ
  histogramMax : Option ℚ
  histogramPeaks : Option ℚ
  histogramZeros : Option ℚ
  histogramMode : Option ℚ
  histogramMean : Option ℚ
  histogramMedian : Option ℚ
  histogramVariance : Option ℚ
  histogramTendency : Option ℚ
deriving DecidableEq

/-- The 21-field payload sent to `/predict/fetal-health`. -/
structure FetalPayload where
  baseline_value : ℚ
  accelerations : ℚ
  fetal_movement : ℚ
  uterine_contractions : ℚ
  light_decelerations : ℚ
  severe_decelerations : ℚ
  prolongued_decelerations : ℚ
  abnormal_short_term_variability : ℚ
  mean_value_of_short_term_variability : ℚ
  percentage_of_time_with_abnormal_long_term_variability : ℚ
  mean_value_of_long_term_variability : ℚ
  histogram_width : ℚ
  histogram_min : ℚ
  histogram_max : ℚ
  histogram_number_of_peaks : ℚ
  histogram_number_of_zeroes : ℚ
  histogram_mode : ℚ
  histogram_mean : ℚ
  histogram_median : ℚ
  histogram_variance : ℚ
  histogram_tendency : ℚ
deriving DecidableEq

/-- Shallow embedding of `apiInput` in the API FetalHealth page
(src/unnamed/part_002 lines 300-322): every one of the 21 numeric fields
is `parseFloat(x) || 0`. -/
def apiInput (r : FetalRaw) : FetalPayload :=
  { baseline_value := PregPage.jsOr r.baselineValue 0,
    accelerations := PregPage.jsOr r.accelerations 0,
    fetal_movement := PregPage.jsOr r.fetalMovement 0,
    uterine_contractions := PregPage.jsOr r.uterineContractions 0,
    light_decelerations := PregPage.jsOr r.lightDecelerations 0,
    severe_decelerations := PregPage.jsOr r.severeDecelerations 0,
    prolongued_decelerations := PregPage.jsOr r.prolonguedDecelerations 0,
    abnormal_short_term_variability := PregPage.jsOr r.abnormalShortTermVariability 0,
    mean_value_of_short_term_variability := PregPage.jsOr r.meanShortTermVariability 0,
    percentage_of_time_with_abnormal_long_term_variability :=
      PregPage.jsOr r.abnormalLongTermVariability 0,
    mean_value_of_long_term_variability := PregPage.jsOr r.meanLongTermVariability 0,
    histogram_width := PregPage.jsOr r.histogramWidth 0,
    histogram_min := PregPage.jsOr r.histogramMin 0,
    histogram_max := PregPage.jsOr r.histogramMax 0,
    histogram_number_of_peaks := PregPage.jsOr r.histogramPeaks 0,
    histogram_number_of_zeroes := PregPage.jsOr r.histogramZeros 0,
    histogram_mode := PregPage.jsOr r.histogramMode 0,
    histogram_mean := PregPage.jsOr r.histogramMean 0,
    histogram_median := PregPage.jsOr r.histogramMedian 0,
    histogram_variance := PregPage.jsOr r.histogramVariance 0,
    histogram_tendency := PregPage.jsOr r.histogramTendency 0 }

/-- A wholly unparsable CTG form. -/
def blankRaw : FetalRaw :=
  ⟨none, none, none, none, none, none, none, none, none, none, none,
   none, none, none, none, none, none, none, none, none, none⟩

/-- The all-zero payload. -/
def zeroPayload : FetalPayload :=
  ⟨0, 0, 0, 0, 0, 0, 0, 0, 0, 0, 0, 0, 0, 0, 0, 0, 0, 0, 0, 0, 0⟩

/-- All 21 numeric fields of the form failed to parse. -/
def allNone (r : FetalRaw) : Prop :=
  r.baselineValue = none ∧ r.accelerations = none ∧ r.fetalMovement = none
    ∧ r.uterineContractions = none ∧ r.lightDecelerations = none
    ∧ r.severeDecelerations = none ∧ r.prolonguedDecelerations = none
    ∧ r.abnormalShortTermVariability = none ∧ r.meanShortTermVariability = none
    ∧ r.abnormalLongTermVariability = none ∧ r.meanLongTermVariability = none
    ∧ r.histogramWidth = none ∧ r.histogramMin = none ∧ r.histogramMax = none
    ∧ r.histogramPeaks = none ∧ r.histogramZeros = none ∧ r.histogramMode = none
    ∧ r.histogramMean = none ∧ r.histogramMedian = none
    ∧ r.histogramVariance = none ∧ r.histogramTendency = none

end FetalApi

/-! ## Brain-Tumor page numeric payload fields (BrainTumor.tsx) -/

namespace BrainApi

/-- Parse results of the two numeric fields of the brain-tumor form. -/
structure BrainRaw where
  age : Option ℚ
  pregnancyWeek : Option ℚ
deriving DecidableEq

/-- Shallow embedding of the numeric part of the payload built in
`handleAnalyze` (BrainTumor.tsx): `parseInt(x) || 0` for both fields. -/
def apiNumeric (r : BrainRaw) : ℚ × ℚ :=
  (PregPage.jsOr r.age 0, PregPage.jsOr r.pregnancyWeek 0)

/-- A wholly unparsable brain-tumor form. -/
def blankRaw : BrainRaw := ⟨none, none⟩

/-- Both numeric fields of the form failed to parse. -/
def allNone (r : BrainRaw) : Prop := r.age = none ∧ r.pregnancyWeek = none

end BrainApi

/-! ## Results page history fallback (Results.tsx) -/

namespace ResultsPage

/-- A prediction-history entry (`PredictionHistoryItem` in api.ts). -/
structure HistoryItem where
  id : Int
  prediction_type : String
  prediction : String
  confidence : ℚ
  created_at : Int
deriving DecidableEq

/-- The three hard-coded sample entries shown when the backend is
unavailable; `now` is the value of `Date.now()` at the failing call. -/
def mockHistory (now : Int) : List HistoryItem :=
  [{ id := 1, prediction_type := "fetal_health", prediction := "Normal",
     confidence := 92.5, created_at := now },
   { id := 2, prediction_type := "brain_tumor", prediction := "No Tumor",
     confidence := 95.8, created_at := now - 86400000 },
   { id := 3, prediction_type := "pregnancy_risk", prediction := "Low Risk",
     confidence := 88.3, created_at := now - 172800000 }]

/-- Shallow embedding of `fetchHistory` in Results.tsx: the history list
the page displays for a backend outcome, plus whether the Backend Offline
toast was shown. -/
def fetchHistoryState (now : Int) (backend : Except String (List HistoryItem)) :
    List HistoryItem × Bool :=
  match backend with
  | .ok h => (h, false)
  | .error _ => (mockHistory now, true)

end ResultsPage

/-! ## Simulated auth provider (AuthContext, local variant) -/

namespace AuthLocal

/-- The stored user record of the simulated auth provider. -/
structure User where
  id : String
  email : String
  name : String
deriving DecidableEq

/-- JS `s.split(sep)` for a one-character separator, over char lists. -/
def splitAtChar (sep : Char) : List Char → List (List Char)
  | [] => [[]]
  | c :: t =>
    if c == sep then [] :: splitAtChar sep t
    else
      match splitAtChar sep t with
      | [] => [[c]]
      | h :: r => (c :: h) :: r

/-- JS `email.split('@')[0]`. -/
def splitHeadAt (sep : Char) (s : String) : String :=
  String.mk ((splitAtChar sep s.data).headD [])

/-- Spec-side reading: the portion of the email before the first `'@'`. -/
def beforeFirstAt (s : String) : String :=
  String.mk (s.data.takeWhile (fun c => c ≠ '@'))

/-- Shallow embedding of `login` in the simulated AuthProvider
(src/unnamed/part_004 lines 36-59): empty email or password, or a
password of fewer than 6 characters, yields an error; otherwise a user
is stored whose name is `email.split('@')[0]`.  `randId` stands for the
random id `Math.random().toString(36).substr(2, 9)`. -/
def login (randId email password : String) : Except String User :=
  if email = "" || password = "" then
    .error "Please enter email and password"
  else if password.length < 6 then
    .error "Invalid credentials"
  else
    .ok { id := randId, email := email, name := splitHeadAt '@' email }

/-- Whether a login attempt returned an error. -/
def isErr : Except String User → Bool
  | .error _ => true
  | .ok _ => false

end AuthLocal

/-! ## Helper lemmas -/

namespace RiskScore

set_option maxHeartbeats 1600000 in
/-- The sequentially accumulated score equals the clamped weighted sum of
the triggered rules. -/
theorem score_eq_flagSum (i : RiskInput) :
    (handleAnalyze i).score = min (flagSum (ruleFlags i)) 100 := by
  have key : ∀ b1 b2 b3 b4 b5 b6 b7 b8 : Bool,
      (let s0 : Int := 0
       let s1 := if b1 then s0 + 15 else s0
       let s2 := if b2 then s1 + 20 else s1
       let s3 := if b3 then s2 + 15 else s2
       let s4 := if b4 then s3 + 10 else s3
       let s5 := if b5 then s4 + 15 else s4
       let s6 := if b6 then s5 + 15 else s5
       let s7 := if b7 then s6 + 15 else s6
       let s8 := if b8 then s7 + 10 else s7
       min s8 100)
      = min (flagSum ⟨b1, b2, b3, b4, b5, b6, b7, b8⟩) 100 := by decide
  exact key (ageRisk i) (bpRisk i) (sugarRisk i) (hrRisk i) (compRisk i)
    (diabRisk i) (hypRisk i) (famRisk i)

/-- The weighted flag sum coincides with the spec-side point sum. -/
theorem flagSum_eq_specSum (i : RiskInput) :
    flagSum (ruleFlags i) = specSum i := by
  simp only [flagSum, ruleFlags, specSum, ageRisk, bpRisk, sugarRisk, hrRisk,
    compRisk, diabRisk, hypRisk, famRisk, Bool.or_eq_true, decide_eq_true_eq,
    beq_iff_eq]

set_option maxHeartbeats 1600000 in
/-- The tier the scorer stores is the spec tier of the stored score. -/
theorem level_eq_specTier (i : RiskInput) :
    (handleAnalyze i).riskLevel = specTier ((handleAnalyze i).score) := rfl

/-- Monotonicity of a single weight term in its trigger bit. -/
theorem ite_weight_mono (a b : Bool) (w : Int) (hab : a = true → b = true)
    (hw : 0 ≤ w) : (if a then w else 0) ≤ (if b then w else 0) := by
  cases a <;> cases b <;> simp_all

/-- The weighted sum is monotone in the triggered-rule set. -/
theorem flagSum_mono {f g : RuleFlags} (h : flagLe f g) :
    flagSum f ≤ flagSum g := by
  obtain ⟨h1, h2, h3, h4, h5, h6, h7, h8⟩ := h
  unfold flagSum
  exact add_le_add (add_le_add (add_le_add (add_le_add (add_le_add (add_le_add
    (add_le_add (ite_weight_mono _ _ _ h1 (by norm_num))
      (ite_weight_mono _ _ _ h2 (by norm_num)))
      (ite_weight_mono _ _ _ h3 (by norm_num)))
      (ite_weight_mono _ _ _ h4 (by norm_num)))
      (ite_weight_mono _ _ _ h5 (by norm_num)))
      (ite_weight_mono _ _ _ h6 (by norm_num)))
      (ite_weight_mono _ _ _ h7 (by norm_num)))
      (ite_weight_mono _ _ _ h8 (by norm_num))

/-- Triggering one additional rule is a pointwise increase. -/
theorem stepUp_flagLe {f g : RuleFlags} (h : stepUp f g) : flagLe f g := by
  rcases h with ⟨h, rfl⟩ | ⟨h, rfl⟩ | ⟨h, rfl⟩ | ⟨h, rfl⟩
    | ⟨h, rfl⟩ | ⟨h, rfl⟩ | ⟨h, rfl⟩ | ⟨h, rfl⟩ <;>
    refine ⟨?_, ?_, ?_, ?_, ?_, ?_, ?_, ?_⟩ <;> intro hx <;>
    first
      | exact hx
      | rfl

/-- The spec tier map is monotone in the score. -/
theorem specTier_mono {s t : Int} (h : s ≤ t) :
    (specTier s).rank ≤ (specTier t).rank := by
  unfold specTier
  split_ifs <;> simp_all [RiskLevel.rank] <;> omega

/-- Appending the placeholder when empty always yields a non-empty list. -/
theorem padded_ne_nil (l : List String) :
    (if l.isEmpty then l ++ [noRiskFactorsMsg] else l) ≠ [] := by
  cases l <;> simp

end RiskScore

namespace AuthLocal

/-- The head of a single-character split is the characters before the
first occurrence of the separator. -/
theorem headD_splitAtChar (sep : Char) (l : List Char) :
    (splitAtChar sep l).headD [] = l.takeWhile (fun c => c ≠ sep) := by
  induction l with
  | nil => rfl
  | cons c t ih =>
    by_cases hc : c = sep
    · simp [splitAtChar, hc]
    · have hb : (c == sep) = false := by simp [hc]
      have hp : (fun x => decide (x ≠ sep)) c = true := by simp [hc]
      rw [@List.takeWhile_cons_of_pos Char (fun x => decide (x ≠ sep)) c t hp]
      cases h : splitAtChar sep t with
      | nil =>
        have ht : List.takeWhile (fun x => decide (x ≠ sep)) t = [] := by
          rw [← ih, h]; rfl
        rw [ht]
        simp only [splitAtChar, hb, h]
        rfl
      | cons hd tl =>
        have ht : List.takeWhile (fun x => decide (x ≠ sep)) t = hd := by
          rw [← ih, h]; rfl
        rw [ht]
        simp only [splitAtChar, hb, h]
        rfl

/-- `email.split('@')[0]` is the portion of the email before the first
`'@'`. -/
theorem splitHeadAt_eq_beforeFirstAt (s : String) :
    splitHeadAt '@' s = beforeFirstAt s := by
  unfold splitHeadAt beforeFirstAt
  rw [headD_splitAtChar]

end AuthLocal

/-! ## Claim theorems -/

/-- C1: for every Pregnancy-Risk input to the local fallback scorer, the
risk score equals the documented additive point table (15 for age outside
[18,35], 20 for systolic > 140 or diastolic > 90, 15 for blood sugar
> 140, 10 for heart rate outside [60,100], 15 each for prior
complications, diabetes and hypertension, 10 for family history), clamped
to at most 100, and the stored tier is Low below 30, Medium below 60 and
High otherwise. -/
theorem c1_fallback_scorer_matches_point_table (i : RiskScore.RiskInput) :
    (RiskScore.handleAnalyze i).score = RiskScore.specScore i
      ∧ (RiskScore.handleAnalyze i).riskLevel
          = RiskScore.specTier ((RiskScore.handleAnalyze i).score) := by
  refine ⟨?_, RiskScore.level_eq_specTier i⟩
  rw [RiskScore.score_eq_flagSum, RiskScore.flagSum_eq_specSum]
  rfl

/-- C2: the fallback scorer is deterministic — re-evaluating on identical
input yields an identical score and tier — and monotone over the point
table: if one additional rule triggers while all other rule outcomes are
unchanged, the score never decreases and the tier never drops in rank. -/
theorem c2_fallback_deterministic_and_monotone (i j : RiskScore.RiskInput)
    (h : RiskScore.stepUp (RiskScore.ruleFlags i) (RiskScore.ruleFlags j)) :
    (RiskScore.handleAnalyze i).score = (RiskScore.handleAnalyze i).score
      ∧ (RiskScore.handleAnalyze i).riskLevel = (RiskScore.handleAnalyze i).riskLevel
      ∧ (RiskScore.handleAnalyze i).score ≤ (RiskScore.handleAnalyze j).score
      ∧ ((RiskScore.handleAnalyze i).riskLevel).rank
          ≤ ((RiskScore.handleAnalyze j).riskLevel).rank := by
  have hs : (RiskScore.handleAnalyze i).score ≤ (RiskScore.handleAnalyze j).score := by
    rw [RiskScore.score_eq_flagSum, RiskScore.score_eq_flagSum]
    exact min_le_min (RiskScore.flagSum_mono (RiskScore.stepUp_flagLe h)) le_rfl
  refine ⟨rfl, rfl, hs, ?_⟩
  rw [RiskScore.level_eq_specTier, RiskScore.level_eq_specTier]
  exact RiskScore.specTier_mono hs

/-- Witness for C2: moving the healthy input's age to 40 triggers exactly
the age rule and does not decrease score or tier. -/
theorem c2_fallback_deterministic_and_monotone_witness :
    (RiskScore.handleAnalyze RiskScore.healthyInput).score
        ≤ (RiskScore.handleAnalyze RiskScore.agedInput).score
      ∧ ((RiskScore.handleAnalyze RiskScore.healthyInput).riskLevel).rank
          ≤ ((RiskScore.handleAnalyze RiskScore.agedInput).riskLevel).rank := by
  have hstep : RiskScore.stepUp (RiskScore.ruleFlags RiskScore.healthyInput)
      (RiskScore.ruleFlags RiskScore.agedInput) := by
    unfold RiskScore.stepUp
    decide
  exact ⟨(c2_fallback_deterministic_and_monotone _ _ hstep).2.2.1,
    (c2_fallback_deterministic_and_monotone _ _ hstep).2.2.2⟩

/-- C3 counterexample: a failing pregnancy-risk backend call is surfaced
to the user as an Analysis Failed notice and the caller receives no
prediction result at all — refuting the claim that every failing
prediction request still yields a fallback prediction result. -/
theorem c3_classifier_failure_surfaced_counterexample :
    PregPage.analyzeOutcome (Except.error "Failed to fetch")
      = (none, "Analysis Failed") := rfl

/-- C3 amended: only the chatbot degrades gracefully — a failing chat
backend call is caught and the appended assistant message carries the
local keyword-fallback response — while a failing pregnancy-risk
prediction call is surfaced as an Analysis Failed notice with no
result. -/
theorem c3_chat_falls_back_prediction_pages_surface (e text : String) :
    Chat.handleSendContent (Except.error e) text
        = (Chat.getFallbackResponse text, true)
      ∧ PregPage.analyzeOutcome (Except.error e) = (none, "Analysis Failed") :=
  ⟨rfl, rfl⟩

/-- C4: the local Fetal-Health engine is not deterministic in its input —
on the identical documented sample data, the random draw 0.5 produces
Normal while the draw 0.95 produces Pathological, so repeated invocations
can return different labels. -/
theorem c4_fetal_fallback_depends_on_random_draw :
    (FetalMock.handleAnalyze 0.5 0.5 FetalMock.sampleCTG).classification
        = FetalMock.FetalClass.Normal
      ∧ (FetalMock.handleAnalyze 0.95 0.5 FetalMock.sampleCTG).classification
          = FetalMock.FetalClass.Pathological
      ∧ FetalMock.FetalClass.Normal ≠ FetalMock.FetalClass.Pathological := by
  refine ⟨?_, ?_, by decide⟩ <;> norm_num [FetalMock.handleAnalyze]

/-- C5: the §8 example input (age 40, BP 150/95, sugar 90, HR 75,
temperature 98.6, no adverse history) scores 15 (age) + 20 (blood
pressure) = 35 with tier Medium, and exactly those two factors. -/
theorem c5_example_input_scores_35_medium :
    (RiskScore.handleAnalyze RiskScore.exampleInput).score = 35
      ∧ (RiskScore.handleAnalyze RiskScore.exampleInput).riskLevel
          = RiskScore.RiskLevel.Medium
      ∧ (RiskScore.handleAnalyze RiskScore.exampleInput).factors
          = ["Age factor (40 years)", "Elevated blood pressure"] := by
  decide

/-- C6 counterexample: a pregnancy-risk form whose numeric fields are all
unparsable dispatches body_temperature = 98.6, not 0 — refuting the claim
that every unparsable numeric field is normalized to 0.0. -/
theorem c6_body_temperature_defaults_counterexample :
    (PregPage.apiInput PregPage.blankRaw).body_temperature = 98.6
      ∧ ((98.6 : ℚ) ≠ 0) :=
  ⟨rfl, by norm_num⟩

/-- C6 amended: an unparsable numeric field is normalized before dispatch
to 0.0 for all 21 Fetal-Health fields, both Brain-Tumor numeric fields and
five of the six Pregnancy-Risk fields; the Pregnancy-Risk
body_temperature field is instead normalized to 98.6. -/
theorem c6_unparsable_fields_normalized (fr : FetalApi.FetalRaw)
    (pr : PregPage.PregRaw) (br : BrainApi.BrainRaw)
    (hf : FetalApi.allNone fr) (hp : PregPage.allNone pr)
    (hb : BrainApi.allNone br) :
    FetalApi.apiInput fr = FetalApi.zeroPayload
      ∧ PregPage.apiInput pr = PregPage.defaultPayload
      ∧ BrainApi.apiNumeric br = (0, 0) := by
  obtain ⟨f1, f2, f3, f4, f5, f6, f7, f8, f9, f10, f11, f12, f13, f14, f15,
    f16, f17, f18, f19, f20, f21⟩ := hf
  obtain ⟨p1, p2, p3, p4, p5, p6⟩ := hp
  obtain ⟨b1, b2⟩ := hb
  refine ⟨?_, ?_, ?_⟩ <;>
    simp [FetalApi.apiInput, FetalApi.zeroPayload, PregPage.apiInput,
      PregPage.defaultPayload, BrainApi.apiNumeric, PregPage.jsOr,
      f1, f2, f3, f4, f5, f6, f7, f8, f9, f10, f11, f12, f13, f14, f15,
      f16, f17, f18, f19, f20, f21, p1, p2, p3, p4, p5, p6, b1, b2]

/-- Witness for C6 amended: the wholly unparsable forms dispatch the
documented defaults. -/
theorem c6_unparsable_fields_normalized_witness :
    FetalApi.apiInput FetalApi.blankRaw = FetalApi.zeroPayload
      ∧ PregPage.apiInput PregPage.blankRaw = PregPage.defaultPayload
      ∧ BrainApi.apiNumeric BrainApi.blankRaw = (0, 0) :=
  c6_unparsable_fields_normalized _ _ _
    ⟨rfl, rfl, rfl, rfl, rfl, rfl, rfl, rfl, rfl, rfl, rfl, rfl, rfl, rfl,
      rfl, rfl, rfl, rfl, rfl, rfl, rfl⟩
    ⟨rfl, rfl, rfl, rfl, rfl, rfl⟩ ⟨rfl, rfl⟩

set_option maxHeartbeats 1600000 in
/-- C7: the factors list of every fallback evaluation is non-empty, and
when no scoring rule triggers it consists of exactly the placeholder
entry. -/
theorem c7_factors_nonempty_with_placeholder (i : RiskScore.RiskInput) :
    (RiskScore.handleAnalyze i).factors ≠ []
      ∧ (RiskScore.ruleFlags i = RiskScore.noFlags
          → (RiskScore.handleAnalyze i).factors = [RiskScore.noRiskFactorsMsg]) := by
  constructor
  · exact RiskScore.padded_ne_nil _
  · intro h
    have ha : RiskScore.ageRisk i = false := congrArg RiskScore.RuleFlags.age h
    have hb : RiskScore.bpRisk i = false := congrArg RiskScore.RuleFlags.bp h
    have hs : RiskScore.sugarRisk i = false := congrArg RiskScore.RuleFlags.sugar h
    have hh : RiskScore.hrRisk i = false := congrArg RiskScore.RuleFlags.hr h
    have hc : RiskScore.compRisk i = false := congrArg RiskScore.RuleFlags.comp h
    have hd : RiskScore.diabRisk i = false := congrArg RiskScore.RuleFlags.diab h
    have hy : RiskScore.hypRisk i = false := congrArg RiskScore.RuleFlags.hyp h
    have hm : RiskScore.famRisk i = false := congrArg RiskScore.RuleFlags.fam h
    simp [RiskScore.handleAnalyze, ha, hb, hs, hh, hc, hd, hy, hm]

/-- Witness for C7: the healthy input triggers no rule and its factors
list is exactly the placeholder. -/
theorem c7_factors_nonempty_with_placeholder_witness :
    (RiskScore.handleAnalyze RiskScore.healthyInput).factors
      = [RiskScore.noRiskFactorsMsg] :=
  (c7_factors_nonempty_with_placeholder RiskScore.healthyInput).2 (by decide)

/-- C8: for every chat message, the local keyword responder returns the
canned answer of the first matching keyword group in the fixed priority
order (symptom group, then food, then weight, then movement), matching
case-insensitive substrings, and the fixed generic default when no
keyword matches. -/
theorem c8_keyword_responder_first_match (m : String) :
    Chat.getFallbackResponse m = Chat.firstMatch m Chat.keywordTable := by
  simp only [Chat.getFallbackResponse, Chat.firstMatch, Chat.keywordTable,
    List.any_cons, List.any_nil, Bool.or_false, Bool.or_assoc]

/-- C9: when the history query fails, the Results page displays exactly
the three hard-coded sample entries with ids 1, 2, 3 and predictions
Normal, No Tumor and Low Risk — a non-empty list not originating from the
history store. -/
theorem c9_history_fallback_mock_entries (now : Int) (e : String) :
    ResultsPage.fetchHistoryState now (Except.error e)
        = (ResultsPage.mockHistory now, true)
      ∧ (ResultsPage.mockHistory now).map (fun h => (h.id, h.prediction))
          = [(1, "Normal"), (2, "No Tumor"), (3, "Low Risk")]
      ∧ ResultsPage.mockHistory now ≠ [] := by
  refine ⟨rfl, rfl, by simp [ResultsPage.mockHistory]⟩

/-- C10: the simulated login errors exactly when the email or password is
empty or the password has fewer than 6 characters, and on success the
stored user keeps the given email and a name equal to the portion of the
email before the first at sign. -/
theorem c10_login_validation_and_name (rid email pw : String) :
    (AuthLocal.isErr (AuthLocal.login rid email pw) = true
        ↔ (email = "" ∨ pw = "" ∨ pw.length < 6))
      ∧ (∀ u, AuthLocal.login rid email pw = Except.ok u
          → u.name = AuthLocal.beforeFirstAt email ∧ u.email = email) := by
  constructor
  · by_cases h1 : email = "" <;> by_cases h2 : pw = "" <;>
      by_cases h3 : pw.length < 6 <;>
      simp [AuthLocal.login, AuthLocal.isErr, h1, h2, h3]
  · intro u hu
    unfold AuthLocal.login at hu
    split_ifs at hu
    all_goals first
      | exact Except.noConfusion hu
      | (cases hu; exact ⟨AuthLocal.splitHeadAt_eq_beforeFirstAt email, rfl⟩)

/-- Witness for C10: a valid login stores the name before the at sign. -/
theorem c10_login_validation_and_name_witness :
    (AuthLocal.User.mk "abc123def" "alice@example.com" "alice").name
        = AuthLocal.beforeFirstAt "alice@example.com"
      ∧ (AuthLocal.User.mk "abc123def" "alice@example.com" "alice").email
          = "alice@example.com" :=
  (c10_login_validation_and_name "abc123def" "alice@example.com" "secret1").2
    (AuthLocal.User.mk "abc123def" "alice@example.com" "alice") (by rfl)

end PregnancyCompass
